import Mathlib

/-
Verification of the blender-id-addon credential manager.

The development embeds the add-on package `blender_id` (files `profiles.py`,
`api.py` and the operator classes in `__init__.py`) shallowly in Lean:

  * JSON values parsed by `json.load` become the inductive type `Json`;
    the on-disk `profiles.json` becomes a `FileState` (absent, unparseable,
    or holding a parsed JSON value).
  * Python expressions that can raise become `Except PyError`; the model
    distinguishes `KeyError`, `TypeError`, `IndexError` and `ValueError`
    because `profiles.get_profiles_data` catches exactly
    `(ValueError, KeyError)` and `api.py` catches exactly the three
    transport exceptions of the requests library.
  * Every store operation returns, besides its value, the resulting file
    state and the list of full documents written to disk, so that the
    "always writes the document back" behaviour is visible.

Well-typed documents (the data model of the specification: a nullable
string `active_profile` and a map from user id to `{username, token}`)
are the structure `Document`; `encodeDoc` injects them into `Json`, and
correspondence lemmas compute each raw operation on encoded documents.
-/

/-! ### Association lists (Python dicts with string keys) -/

/-- Lookup in an association list, first match. JSON objects parsed from a
file have unique keys, so this is Python dict lookup. -/
def alookup {α : Type} : List (String × α) → String → Option α
  | [], _ => none
  | (k', v) :: t, k => if k' = k then some v else alookup t k

/-- Python dict assignment `d[k] = v`: replace the binding in place if the
key is present, else append it (insertion order is preserved, as in
CPython dicts and in the order `json.dump` writes keys). -/
def setKv {α : Type} : List (String × α) → String → α → List (String × α)
  | [], k, v => [(k, v)]
  | (k', v') :: t, k, v => if k' = k then (k, v) :: t else (k', v') :: setKv t k v

/-- Python `del d[k]` on a unique-key dict: drop every binding of `k`
(with unique keys this is exactly the removal of the one binding). -/
def eraseKv {α : Type} (l : List (String × α)) (k : String) : List (String × α) :=
  l.filter (fun kv => kv.1 != k)

/-- Map a function over the values of an association list. -/
def mapVals {α β : Type} (f : α → β) (l : List (String × α)) : List (String × β) :=
  l.map (fun kv => (kv.1, f kv.2))

/-! ### JSON values and Python dynamic semantics -/

/-- A JSON value as produced by `json.load`. JSON numbers are modelled as
integers; no modelled code path depends on floating point numbers. -/
inductive Json where
  | null : Json
  | bool : Bool → Json
  | num : Int → Json
  | str : String → Json
  | arr : List Json → Json
  | obj : List (String × Json) → Json

/-- The Python exceptions the modelled code can raise or catch. -/
inductive PyError where
  | keyError : PyError
  | typeError : PyError
  | indexError : PyError
  | valueError : PyError
  | otherError : PyError
deriving DecidableEq, Repr

/-- Python `j[k]` for a string key `k`: dict lookup, raising `KeyError`
when absent; any non-dict value raises `TypeError` (list indices must be
integers; strings and numbers are not subscriptable by a string). -/
def Json.getItem : Json → String → Except PyError Json
  | .obj kvs, k =>
    match alookup kvs k with
    | some v => .ok v
    | none => .error .keyError
  | _, _ => .error .typeError

/-- Python `j[k] = v` for a string key: only dicts support assignment with
a string subscript. -/
def Json.setItem : Json → String → Json → Except PyError Json
  | .obj kvs, k, v => .ok (.obj (setKv kvs k v))
  | _, _, _ => .error .typeError

/-- Python `del j[k]` for a string key. -/
def Json.delItem : Json → String → Except PyError Json
  | .obj kvs, k =>
    match alookup kvs k with
    | some _ => .ok (.obj (eraseKv kvs k))
    | none => .error .keyError
  | _, _ => .error .typeError

/-- Python truthiness of a JSON value: `None`, `False`, `0`, `""`, `[]`
and the empty dict are falsy. -/
def Json.falsy : Json → Bool
  | .null => true
  | .bool b => !b
  | .num n => n == 0
  | .str s => s == ""
  | .arr xs => xs.isEmpty
  | .obj kvs => kvs.isEmpty

/-- Python `j == s` for a string literal `s`: only equal strings compare
equal; no other JSON value equals a string. -/
def Json.pyEqStr : Json → String → Bool
  | .str t, s => t == s
  | _, _ => false

mutual
/-- Python structural equality between parsed JSON values, used by `in` on
lists. It agrees with Python `==` on all values reachable in this
development; the single divergence is that Python treats `True == 1`,
which cannot arise here because the needle compared against is produced
by the store code. For dicts with unique keys, equal length plus pointwise
containment is dict equality. -/
def jsonEqb : Json → Json → Bool
  | .null, .null => true
  | .bool a, .bool b => a == b
  | .num a, .num b => a == b
  | .str a, .str b => a == b
  | .arr a, .arr b => jsonEqbL a b
  | .obj a, .obj b => a.length == b.length && jsonEqbO a b
  | _, _ => false

def jsonEqbL : List Json → List Json → Bool
  | [], [] => true
  | x :: xs, y :: ys => jsonEqb x y && jsonEqbL xs ys
  | _, _ => false

def jsonEqbO : List (String × Json) → List (String × Json) → Bool
  | [], _ => true
  | (k, v) :: t, b =>
    (match alookup b k with
     | some w => jsonEqb v w
     | none => false) && jsonEqbO t b
end

/-- Substring test on character lists, for Python `in` on strings. -/
def listInfix : List Char → List Char → Bool
  | ns, [] => ns.isEmpty
  | ns, h :: t => ns.isPrefixOf (h :: t) || listInfix ns t

/-- Python `needle in hay`. For dicts: string needles test key membership,
other hashable scalars never equal a string key, unhashable needles raise
`TypeError`. For strings: substring test, non-string needles raise
`TypeError`. For lists: element equality. Everything else is not iterable
and raises `TypeError`. -/
def Json.hasMember : Json → Json → Except PyError Bool
  | .obj kvs, .str k => .ok (alookup kvs k).isSome
  | .obj _, .arr _ => .error .typeError
  | .obj _, .obj _ => .error .typeError
  | .obj _, _ => .ok false
  | .str s, .str k => .ok (listInfix k.toList s.toList)
  | .str _, _ => .error .typeError
  | .arr xs, n => .ok (xs.any (fun e => jsonEqb e n))
  | _, _ => .error .typeError

/-- Python `j[key]` with an arbitrary JSON value as subscript: dicts accept
hashable keys (only equal strings can match a JSON key); lists accept
integers and booleans, with negative indexing and `IndexError` out of
range; strings accept integers and yield a one-character string. -/
def Json.getItemJ : Json → Json → Except PyError Json
  | .obj kvs, .str k =>
    match alookup kvs k with
    | some v => .ok v
    | none => .error .keyError
  | .obj _, .arr _ => .error .typeError
  | .obj _, .obj _ => .error .typeError
  | .obj _, _ => .error .keyError
  | .arr xs, .num i =>
    let n : Int := if i < 0 then i + xs.length else i
    if 0 ≤ n ∧ n < xs.length then
      match xs.get? n.toNat with
      | some v => .ok v
      | none => .error .indexError
    else .error .indexError
  | .arr xs, .bool b =>
    match xs.get? (if b then 1 else 0) with
    | some v => .ok v
    | none => .error .indexError
  | .str s, .num i =>
    let n : Int := if i < 0 then i + s.length else i
    if 0 ≤ n ∧ n < s.length then .ok (.str (String.mk [s.toList.getD n.toNat ' ']))
    else .error .indexError
  | _, _ => .error .typeError

/-- An ASCII apostrophe, used by the Python `repr` rendering. -/
def pyQuote : String := (Char.ofNat 39).toString

mutual
/-- Python `repr()` of a parsed JSON value (escaping inside strings is not
reproduced; no modelled claim evaluates the rendering of a container). -/
def pyRepr : Json → String
  | .null => "None"
  | .bool true => "True"
  | .bool false => "False"
  | .num n => toString n
  | .str s => pyQuote ++ s ++ pyQuote
  | .arr xs => "[" ++ pyReprL xs ++ "]"
  | .obj kvs => "\x7b" ++ pyReprO kvs ++ "\x7d"

def pyReprL : List Json → String
  | [] => ""
  | [x] => pyRepr x
  | x :: t => pyRepr x ++ ", " ++ pyReprL t

def pyReprO : List (String × Json) → String
  | [] => ""
  | [(k, v)] => pyQuote ++ k ++ pyQuote ++ ": " ++ pyRepr v
  | (k, v) :: t => pyQuote ++ k ++ pyQuote ++ ": " ++ pyRepr v ++ ", " ++ pyReprO t
end

/-- Python `str()` of a parsed JSON value: the identity on strings, the
`repr` rendering otherwise (so `str(42)` is `"42"`). Used by
`user_id = str(resp["data"]["user_id"])`. -/
def pyStr : Json → String
  | .str s => s
  | j => pyRepr j

/-! ### The profile store file -/

/-- The state of `profiles.json` on disk. `absent` means the file does not
exist; `invalid` means it exists but `json.load` raises `ValueError` on
it; `json j` means it parses to the value `j`. Filesystem-level failures
(permissions, disk errors) are outside the model, matching the
specification, which treats them as a separate fatal `StorageError`. -/
inductive FileState where
  | absent : FileState
  | invalid : FileState
  | json : Json → FileState

/-- Result of a load: the returned document, the resulting file state, and
the list of full documents written to disk along the way. -/
structure LoadResult where
  data : Json
  file : FileState
  writes : List Json

namespace profiles

/-- The default document `{"active_profile": null, "profiles": {}}` from
`_create_default_file`. -/
def profiles_default_data : Json :=
  .obj [("active_profile", .null), ("profiles", .obj [])]

/-- `_create_default_file`: writes the default document and returns its
contents. Directory creation (`os.makedirs(..., exist_ok=True)`) and the
umask manipulation for owner-only permissions are filesystem details with
no effect on the returned data. -/
def create_default_file : LoadResult :=
  ⟨profiles_default_data, .json profiles_default_data, [profiles_default_data]⟩

/-- `get_profiles_data` from `profiles.py`: if the file does not exist,
create the default one; otherwise parse it and probe the two keys
`"active_profile"` and `"profiles"`, resetting the file to the default on
`ValueError` (malformed JSON) or `KeyError` (missing key). Note the
`except` clause catches exactly `(ValueError, KeyError)`: a `TypeError`,
raised when the file parses to a non-dict value, propagates. -/
def get_profiles_data : FileState → Except PyError LoadResult
  | .absent => .ok create_default_file
  | .invalid => .ok create_default_file
  | .json j =>
    match j.getItem "active_profile" with
    | .error .keyError => .ok create_default_file
    | .error e => .error e
    | .ok _ =>
      match j.getItem "profiles" with
      | .error .keyError => .ok create_default_file
      | .error e => .error e
      | .ok _ => .ok ⟨j, .json j, []⟩

/-- `get_active_user_id`: `return get_profiles_data()["active_profile"]`. -/
def get_active_user_id (fs : FileState) : Except PyError (Json × FileState) :=
  match get_profiles_data fs with
  | .error e => .error e
  | .ok r =>
    match r.data.getItem "active_profile" with
    | .error e => .error e
    | .ok v => .ok (v, r.file)

/-- `get_active_profile`: pick the active profile, returning `None` when
the active id is falsy or not a key of the profiles mapping; otherwise
return the profile dict with the key `"user_id"` added to it. -/
def get_active_profile (fs : FileState) : Except PyError (Option Json × FileState) :=
  match get_profiles_data fs with
  | .error e => .error e
  | .ok r =>
    match r.data.getItem "active_profile" with
    | .error e => .error e
    | .ok user_id =>
      if user_id.falsy then .ok (none, r.file)
      else
        match r.data.getItem "profiles" with
        | .error e => .error e
        | .ok profs =>
          match profs.hasMember user_id with
          | .error e => .error e
          | .ok mem =>
            if !mem then .ok (none, r.file)
            else
              match profs.getItemJ user_id with
              | .error e => .error e
              | .ok profile =>
                match profile.setItem "user_id" user_id with
                | .error e => .error e
                | .ok profile' => .ok (some profile', r.file)

/-- `get_profile(user_id)`: `None` for a falsy or unknown id, else a fresh
`{"username": ..., "token": ...}` dict built from the stored profile. The
`not user_id` test short-circuits, so an empty id never reaches the
membership test. -/
def get_profile (fs : FileState) (user_id : String) : Except PyError (Option Json × FileState) :=
  match get_profiles_data fs with
  | .error e => .error e
  | .ok r =>
    if user_id = "" then .ok (none, r.file)
    else
      match r.data.getItem "profiles" with
      | .error e => .error e
      | .ok profs =>
        match profs.hasMember (.str user_id) with
        | .error e => .error e
        | .ok mem =>
          if !mem then .ok (none, r.file)
          else
            match profs.getItemJ (.str user_id) with
            | .error e => .error e
            | .ok p =>
              match p.getItem "username" with
              | .error e => .error e
              | .ok un =>
                match p.getItem "token" with
                | .error e => .error e
                | .ok tok => .ok (some (.obj [("username", un), ("token", tok)]), r.file)

/-- `save_as_active_profile(user_id, token, username)`: load (repairing if
needed), overwrite or create the profile entry for `user_id`, then write
`{"active_profile": user_id, "profiles": profiles}` back to the file. -/
def save_as_active_profile (fs : FileState) (user_id token username : String) :
    Except PyError (FileState × List Json) :=
  match get_profiles_data fs with
  | .error e => .error e
  | .ok r =>
    match r.data.getItem "profiles" with
    | .error e => .error e
    | .ok profs =>
      match profs.setItem user_id (.obj [("username", .str username), ("token", .str token)]) with
      | .error e => .error e
      | .ok profs' =>
        let newData := Json.obj [("active_profile", .str user_id), ("profiles", profs')]
        .ok (.json newData, r.writes ++ [newData])

/-- `logout(user_id)` from `profiles.py`: load the document, clear
`active_profile` to `""` when it equals `user_id`, delete
`profiles[user_id]` when present, and write the document back
unconditionally. -/
def logout (fs : FileState) (user_id : String) : Except PyError (FileState × List Json) :=
  match get_profiles_data fs with
  | .error e => .error e
  | .ok r =>
    match r.data.getItem "active_profile" with
    | .error e => .error e
    | .ok ap =>
      match (if ap.pyEqStr user_id then r.data.setItem "active_profile" (.str "") else (.ok r.data : Except PyError Json)) with
      | .error e => .error e
      | .ok data₁ =>
        match data₁.getItem "profiles" with
        | .error e => .error e
        | .ok profs =>
          match profs.hasMember (.str user_id) with
          | .error e => .error e
          | .ok mem =>
            match (if mem then
                     match profs.delItem user_id with
                     | .error e => .error e
                     | .ok profs' => data₁.setItem "profiles" profs'
                   else (.ok data₁ : Except PyError Json)) with
            | .error e => .error e
            | .ok data₂ => .ok (.json data₂, r.writes ++ [data₂])

end profiles

/-! ### Well-typed documents -/

/-- A stored profile: the data model of the specification. -/
structure Profile where
  username : String
  token : String
deriving DecidableEq, Repr

/-- A well-typed store document: nullable string active pointer plus a map
from user id to profile. -/
structure Document where
  active_profile : Option String
  profiles : List (String × Profile)
deriving DecidableEq, Repr

/-- JSON encoding of the active pointer: `null` or a string. -/
def encodeActive : Option String → Json
  | none => .null
  | some s => .str s

/-- JSON encoding of a profile, in the key order `dict(username=..., token=...)`
produces. -/
def encodeProfile (p : Profile) : Json :=
  .obj [("username", .str p.username), ("token", .str p.token)]

/-- JSON encoding of a well-typed document. -/
def encodeDoc (d : Document) : Json :=
  .obj [("active_profile", encodeActive d.active_profile),
        ("profiles", .obj (mapVals encodeProfile d.profiles))]

/-- The effect of `save_as_active_profile` on a well-typed document. -/
def saveT (d : Document) (user_id token username : String) : Document :=
  ⟨some user_id, setKv d.profiles user_id ⟨username, token⟩⟩

/-- The effect of `profiles.logout` on a well-typed document. -/
def logoutT (d : Document) (user_id : String) : Document :=
  ⟨if d.active_profile = some user_id then some "" else d.active_profile,
   eraseKv d.profiles user_id⟩

/-- The store invariant: a non-empty active pointer is a key of the
profiles map. -/
def storeInvB (d : Document) : Bool :=
  match d.active_profile with
  | none => true
  | some s => s == "" || (alookup d.profiles s).isSome

/-! ### Lemmas about the association list operations -/

theorem alookup_mapVals {α β : Type} (f : α → β) (l : List (String × α)) (k : String) :
    alookup (mapVals f l) k = (alookup l k).map f := by
  induction l with
  | nil => rfl
  | cons kv t ih =>
    obtain ⟨k1, v1⟩ := kv
    by_cases h : k1 = k
    · simp [mapVals, alookup, h]
    · simpa [mapVals, alookup, h] using ih

theorem setKv_mapVals_prof (l : List (String × Profile)) (u n t : String) :
    setKv (mapVals encodeProfile l) u (.obj [("username", .str n), ("token", .str t)]) =
      mapVals encodeProfile (setKv l u ⟨n, t⟩) := by
  induction l with
  | nil => simp [mapVals, setKv, encodeProfile]
  | cons kv tl ih =>
    obtain ⟨k1, v1⟩ := kv
    by_cases h : k1 = u
    · simp [mapVals, setKv, h, encodeProfile]
    · simpa [mapVals, setKv, h] using ih

theorem eraseKv_mapVals {α β : Type} (f : α → β) (l : List (String × α)) (k : String) :
    eraseKv (mapVals f l) k = mapVals f (eraseKv l k) := by
  induction l with
  | nil => rfl
  | cons kv t ih =>
    obtain ⟨k1, v1⟩ := kv
    by_cases h : k1 = k
    · simpa [mapVals, eraseKv, h] using ih
    · simpa [mapVals, eraseKv, h] using ih

theorem eraseKv_not_mem {α : Type} (l : List (String × α)) (k : String)
    (h : alookup l k = none) : eraseKv l k = l := by
  induction l with
  | nil => rfl
  | cons kv t ih =>
    obtain ⟨k1, v1⟩ := kv
    by_cases hk : k1 = k
    · simp [alookup, hk] at h
    · simp [alookup, hk] at h
      simpa [eraseKv, hk] using ih h

theorem alookup_setKv_self {α : Type} (l : List (String × α)) (k : String) (v : α) :
    alookup (setKv l k v) k = some v := by
  induction l with
  | nil => simp [setKv, alookup]
  | cons kv t ih =>
    obtain ⟨k1, v1⟩ := kv
    by_cases h : k1 = k
    · simp [setKv, alookup, h]
    · simp [setKv, alookup, h, ih]

theorem alookup_setKv_ne {α : Type} (l : List (String × α)) (k k' : String) (v : α)
    (h : k' ≠ k) : alookup (setKv l k v) k' = alookup l k' := by
  have h' : ¬ k = k' := fun hh => h hh.symm
  induction l with
  | nil => simp [setKv, alookup, h']
  | cons kv t ih =>
    obtain ⟨k1, v1⟩ := kv
    by_cases hk : k1 = k
    · subst hk
      simp [setKv, alookup, h']
    · simp [setKv, alookup, hk, ih]

theorem alookup_eraseKv_self {α : Type} (l : List (String × α)) (k : String) :
    alookup (eraseKv l k) k = none := by
  induction l with
  | nil => rfl
  | cons kv t ih =>
    obtain ⟨k1, v1⟩ := kv
    by_cases h : k1 = k
    · simpa [eraseKv, h] using ih
    · simp [eraseKv, alookup, h]
      simpa [eraseKv] using ih

theorem alookup_eraseKv_ne {α : Type} (l : List (String × α)) (k k' : String)
    (h : k' ≠ k) : alookup (eraseKv l k) k' = alookup l k' := by
  have h' : ¬ k = k' := fun hh => h hh.symm
  induction l with
  | nil => rfl
  | cons kv t ih =>
    obtain ⟨k1, v1⟩ := kv
    by_cases hk : k1 = k
    · subst hk
      simp [eraseKv, alookup, h']
      simpa [eraseKv] using ih
    · by_cases hk' : k1 = k'
      · subst hk'
        simp [eraseKv, alookup, hk]
      · simp [eraseKv, alookup, hk, hk']
        simpa [eraseKv] using ih

/-! ### Computation of the raw operations on encoded documents -/

theorem get_profiles_data_encode (d : Document) :
    profiles.get_profiles_data (.json (encodeDoc d)) = .ok ⟨encodeDoc d, .json (encodeDoc d), []⟩ :=
  rfl

theorem getItem_active_encode (d : Document) :
    (encodeDoc d).getItem "active_profile" = .ok (encodeActive d.active_profile) := rfl

theorem getItem_profiles_encode (d : Document) :
    (encodeDoc d).getItem "profiles" = .ok (.obj (mapVals encodeProfile d.profiles)) := rfl

theorem setActive_encode (d : Document) (s : String) :
    (encodeDoc d).setItem "active_profile" (.str s) = .ok (encodeDoc ⟨some s, d.profiles⟩) := rfl

theorem setProfiles_encode (d : Document) (l : List (String × Profile)) :
    (encodeDoc d).setItem "profiles" (.obj (mapVals encodeProfile l)) =
      .ok (encodeDoc ⟨d.active_profile, l⟩) := rfl

theorem hasMember_obj_str (kvs : List (String × Json)) (k : String) :
    (Json.obj kvs).hasMember (.str k) = .ok (alookup kvs k).isSome := rfl

theorem getItemJ_obj_str (kvs : List (String × Json)) (k : String) :
    (Json.obj kvs).getItemJ (.str k) = (Json.obj kvs).getItem k := rfl

theorem getItem_obj (kvs : List (String × Json)) (k : String) :
    (Json.obj kvs).getItem k =
      (match alookup kvs k with
       | some v => Except.ok v
       | none => Except.error PyError.keyError) := rfl

theorem getItem_username_encode (p : Profile) :
    (encodeProfile p).getItem "username" = .ok (.str p.username) := rfl

theorem getItem_token_encode (p : Profile) :
    (encodeProfile p).getItem "token" = .ok (.str p.token) := rfl

theorem setItem_user_id_encode (p : Profile) (s : String) :
    (encodeProfile p).setItem "user_id" (.str s) =
      .ok (.obj [("username", .str p.username), ("token", .str p.token), ("user_id", .str s)]) :=
  rfl

theorem pyEqStr_encodeActive_eq (u : String) :
    (encodeActive (some u)).pyEqStr u = true := by
  simp [encodeActive, Json.pyEqStr]

theorem pyEqStr_encodeActive_ne (a : Option String) (u : String) (h : a ≠ some u) :
    (encodeActive a).pyEqStr u = false := by
  cases a with
  | none => rfl
  | some s =>
    simp only [encodeActive, Json.pyEqStr, beq_eq_false_iff_ne, ne_eq]
    intro hs
    exact h (by rw [hs])

theorem get_active_user_id_encode (d : Document) :
    profiles.get_active_user_id (.json (encodeDoc d)) =
      .ok (encodeActive d.active_profile, .json (encodeDoc d)) := rfl

theorem save_encode (d : Document) (u t n : String) :
    profiles.save_as_active_profile (.json (encodeDoc d)) u t n =
      .ok (.json (encodeDoc (saveT d u t n)), [encodeDoc (saveT d u t n)]) := by
  simp only [profiles.save_as_active_profile, get_profiles_data_encode, getItem_profiles_encode,
    Json.setItem, setKv_mapVals_prof, saveT]
  rfl

theorem logout_encode (d : Document) (u : String) :
    profiles.logout (.json (encodeDoc d)) u =
      .ok (.json (encodeDoc (logoutT d u)), [encodeDoc (logoutT d u)]) := by
  by_cases h : d.active_profile = some u
  · rcases hm : alookup d.profiles u with _ | p
    · simp [profiles.logout, get_profiles_data_encode, getItem_active_encode, h,
        pyEqStr_encodeActive_eq, setActive_encode, getItem_profiles_encode,
        hasMember_obj_str, alookup_mapVals, hm, logoutT,
        eraseKv_not_mem d.profiles u hm]
    · simp [profiles.logout, get_profiles_data_encode, getItem_active_encode, h,
        pyEqStr_encodeActive_eq, setActive_encode, getItem_profiles_encode,
        hasMember_obj_str, alookup_mapVals, hm, Json.delItem, eraseKv_mapVals,
        setProfiles_encode, logoutT]
  · rcases hm : alookup d.profiles u with _ | p
    · simp [profiles.logout, get_profiles_data_encode, getItem_active_encode,
        pyEqStr_encodeActive_ne d.active_profile u h, getItem_profiles_encode,
        hasMember_obj_str, alookup_mapVals, hm, logoutT, h,
        eraseKv_not_mem d.profiles u hm]
    · simp [profiles.logout, get_profiles_data_encode, getItem_active_encode,
        pyEqStr_encodeActive_ne d.active_profile u h, getItem_profiles_encode,
        hasMember_obj_str, alookup_mapVals, hm, Json.delItem, eraseKv_mapVals,
        setProfiles_encode, logoutT, h]

theorem get_profile_encode (d : Document) (u : String) (h : u ≠ "") :
    profiles.get_profile (.json (encodeDoc d)) u =
      .ok ((alookup d.profiles u).map
             (fun p => .obj [("username", .str p.username), ("token", .str p.token)]),
           .json (encodeDoc d)) := by
  rcases hm : alookup d.profiles u with _ | p
  · simp [profiles.get_profile, get_profiles_data_encode, h, getItem_profiles_encode,
      hasMember_obj_str, alookup_mapVals, hm]
  · simp [profiles.get_profile, get_profiles_data_encode, h, getItem_profiles_encode,
      hasMember_obj_str, alookup_mapVals, hm, getItemJ_obj_str, getItem_obj,
      getItem_username_encode, getItem_token_encode]

theorem get_active_profile_encode (d : Document) :
    profiles.get_active_profile (.json (encodeDoc d)) =
      .ok ((match d.active_profile with
            | none => none
            | some s =>
              if s = "" then none
              else (alookup d.profiles s).map (fun p =>
                Json.obj [("username", .str p.username), ("token", .str p.token),
                          ("user_id", .str s)])),
           .json (encodeDoc d)) := by
  rcases ha : d.active_profile with _ | s
  · simp [profiles.get_active_profile, get_profiles_data_encode, getItem_active_encode, ha,
      encodeActive, Json.falsy]
  · by_cases hs : s = ""
    · simp [profiles.get_active_profile, get_profiles_data_encode, getItem_active_encode, ha,
        hs, encodeActive, Json.falsy]
    · rcases hm : alookup d.profiles s with _ | p
      · simp [profiles.get_active_profile, get_profiles_data_encode, getItem_active_encode, ha,
          hs, encodeActive, Json.falsy, getItem_profiles_encode, hasMember_obj_str,
          alookup_mapVals, hm]
      · simp [profiles.get_active_profile, get_profiles_data_encode, getItem_active_encode, ha,
          hs, encodeActive, Json.falsy, getItem_profiles_encode, hasMember_obj_str,
          alookup_mapVals, hm, getItemJ_obj_str, getItem_obj, setItem_user_id_encode]

/-! ### The remote API (`api.py`) -/

/-- The three exception classes the requests calls in `api.py` catch:
`requests.exceptions.SSLError`, `HTTPError` and `ConnectionError`. -/
inductive TransportError where
  | sslError : TransportError
  | httpError : TransportError
  | connectionError : TransportError
deriving DecidableEq, Repr

/-- The text of `str(e)` for a caught transport exception. The exact wording
is produced by the requests library at run time; the model renders the
class name, which no modelled claim inspects. -/
def TransportError.pyMessage : TransportError → String
  | .sslError => "SSLError"
  | .httpError => "HTTPError"
  | .connectionError => "ConnectionError"

/-- The text of `type(e).__name__` for a caught transport exception. -/
def TransportError.typeName : TransportError → String
  | .sslError => "SSLError"
  | .httpError => "HTTPError"
  | .connectionError => "ConnectionError"

/-- Outcome of an HTTP POST performed by the requests library: an exception
of one of the three caught classes, an exception of any other class (for
example a timeout), or a response with a status code and a body, where
`none` stands for a body on which `r.json()` raises `ValueError`. -/
inductive HttpOutcome where
  | caughtExn : TransportError → HttpOutcome
  | uncaughtExn : HttpOutcome
  | resp : Nat → Option Json → HttpOutcome

/-- The result dict of `blender_id_server_authenticate`: `status` is
whatever JSON value the body carried (or the string `"fail"`),
`user_id` is `None` or the stringified id, `token` is `None` or the
JSON value found in the payload, `error_message` is `None` or a string. -/
structure AuthResult where
  status : Json
  user_id : Option String
  token : Option Json
  error_message : Option String

/-- `blender_id_server_authenticate` from `api.py`. The username, password
and host label only form the POST payload; the response of the server is
the `HttpOutcome` parameter. On a 200 response the body is parsed and the
application status drives the branches of the source: `success` extracts
`str(data["user_id"])` and `data["oauth_token"]["access_token"]`; `fail`
inspects whether `"username"` or `"password"` occurs in `data` and
otherwise leaves `error_message` as `None`; any other status falls
through with `error_message` still `None`. A non-200 status code yields a
generic message with the code. -/
def blender_id_server_authenticate (username password : String) (o : HttpOutcome) :
    Except PyError AuthResult :=
  match o with
  | .caughtExn e => .ok ⟨.str "fail", none, none, some e.pyMessage⟩
  | .uncaughtExn => .error .otherError
  | .resp code body =>
    if code = 200 then
      match body with
      | none => .error .valueError
      | some resp =>
        match resp.getItem "status" with
        | .error e => .error e
        | .ok st =>
          if st.pyEqStr "success" then
            match resp.getItem "data" with
            | .error e => .error e
            | .ok data =>
              match data.getItem "user_id" with
              | .error e => .error e
              | .ok uid =>
                match resp.getItem "data" with
                | .error e => .error e
                | .ok data2 =>
                  match data2.getItem "oauth_token" with
                  | .error e => .error e
                  | .ok oauth =>
                    match oauth.getItem "access_token" with
                    | .error e => .error e
                    | .ok tok => .ok ⟨st, some (pyStr uid), some tok, none⟩
          else if st.pyEqStr "fail" then
            match resp.getItem "data" with
            | .error e => .error e
            | .ok d1 =>
              match d1.hasMember (.str "username") with
              | .error e => .error e
              | .ok hasU =>
                if hasU then .ok ⟨st, none, none, some "Username does not exist"⟩
                else
                  match resp.getItem "data" with
                  | .error e => .error e
                  | .ok d2 =>
                    match d2.hasMember (.str "password") with
                    | .error e => .error e
                    | .ok hasP =>
                      if hasP then .ok ⟨st, none, none, some "Password does not match!"⟩
                      else .ok ⟨st, none, none, none⟩
          else .ok ⟨st, none, none, none⟩
    else
      .ok ⟨.str "fail", none, none,
           some ("There was a problem communicating with the server. Error code is: " ++
                 toString code)⟩

/-- The result dict of `blender_id_server_logout`. -/
structure RevokeResult where
  status : Json
  error_message : Option String

/-- `blender_id_server_logout` from `api.py`: POST to the delete-token
endpoint; a caught transport exception or a non-200 status yields a
`fail` dict with a message; on 200 the body is parsed (`r.json()` raising
`ValueError` on a malformed body, uncaught) and the dict
`{status: resp["status"], error_message: None}` is returned. -/
def blender_id_server_logout (user_id tok : String) (o : HttpOutcome) :
    Except PyError RevokeResult :=
  match o with
  | .caughtExn e =>
    .ok ⟨.str "fail",
         some ("There was a problem setting up a connection to the server. Error type is: " ++
               e.typeName)⟩
  | .uncaughtExn => .error .otherError
  | .resp code body =>
    if code ≠ 200 then
      .ok ⟨.str "fail",
           some ("There was a problem communicating with the server. Error code is: " ++
                 toString code)⟩
    else
      match body with
      | none => .error .valueError
      | some resp =>
        match resp.getItem "status" with
        | .error e => .error e
        | .ok st => .ok ⟨st, none⟩

/-! ### The operators of `__init__.py` -/

/-- The add-on preferences fields the operators use. Blender
`StringProperty` values are strings; assigning `None` to one raises
`TypeError`, which the model applies where the code assigns an optional
value to a property. -/
structure Prefs where
  error_message : String
  ok_message : String
  blender_id_username : String
  blender_id_password : String
deriving DecidableEq, Repr

/-- The `BlenderIdProfile` window-manager property group: the in-memory
session handle; empty strings mean logged out. -/
structure SessionHandle where
  unique_id : String
  token : String
deriving DecidableEq, Repr

/-- The state an operator sees: preferences, session handle and the store
file on disk. -/
structure UiState where
  prefs : Prefs
  handle : SessionHandle
  store : FileState

/-- `BlenderIdPreferences.reset_messages`, called by `prefs_profile` at the
start of every operator. -/
def reset_messages (p : Prefs) : Prefs :=
  { p with ok_message := "", error_message := "" }

/-- Result of `BlenderIdLogin.execute`: the final state, the successive
values assigned to the password property, and the exception aborting the
operator, if any. -/
structure LoginOut where
  st : UiState
  pwWrites : List String
  err : Option PyError

/-- `BlenderIdLogin.execute`: reset the messages (via `prefs_profile`), call
`blender_id_server_authenticate` with the stored username and password;
on success fill the session handle from the result, overwrite the
password property with a random string of length `len(password) + 16`
(characters drawn one by one by `randChar`, modelling `random.choice`),
then set it to `""`, then persist via `save_as_active_profile`; on any
other status assign `resp["error_message"]` to the error message
property. -/
def BlenderIdLogin.execute (o : HttpOutcome) (randChar : Nat → Char) (s0 : UiState) : LoginOut :=
  let s := { s0 with prefs := reset_messages s0.prefs }
  match blender_id_server_authenticate s.prefs.blender_id_username s.prefs.blender_id_password o with
  | .error e => ⟨s, [], some e⟩
  | .ok resp =>
    if resp.status.pyEqStr "success" then
      match resp.user_id with
      | none => ⟨s, [], some .typeError⟩
      | some uid =>
        let s1 := { s with handle := { s.handle with unique_id := uid } }
        match resp.token with
        | some (.str tok) =>
          let s2 := { s1 with handle := { s1.handle with token := tok } }
          let pwlen := s2.prefs.blender_id_password.length
          let rnd : String := ⟨(List.range (pwlen + 16)).map randChar⟩
          let s3 := { s2 with prefs := { s2.prefs with blender_id_password := rnd } }
          let s4 := { s3 with prefs := { s3.prefs with blender_id_password := "" } }
          match profiles.save_as_active_profile s4.store uid tok s4.prefs.blender_id_username with
          | .error e => ⟨s4, [rnd, ""], some e⟩
          | .ok (fs, _) => ⟨{ s4 with store := fs }, [rnd, ""], none⟩
        | _ => ⟨s1, [], some .typeError⟩
    else
      match resp.error_message with
      | some m => ⟨{ s with prefs := { s.prefs with error_message := m } }, [], none⟩
      | none => ⟨s, [], some .typeError⟩

/-- `BlenderIdLogout.execute`: reset messages, call the remote revoke (its
returned dict is ignored), then `profiles.logout` on the handle id, then
clear both handle fields. An exception raised by either call aborts the
operator at that point. -/
def BlenderIdLogout.execute (o : HttpOutcome) (s0 : UiState) : UiState × Option PyError :=
  let s := { s0 with prefs := reset_messages s0.prefs }
  match blender_id_server_logout s.handle.unique_id s.handle.token o with
  | .error e => (s, some e)
  | .ok _ =>
    match profiles.logout s.store s.handle.unique_id with
    | .error e => (s, some e)
    | .ok (fs, _) =>
      ({ s with store := fs,
                handle := { s.handle with unique_id := "", token := "" } }, none)

/-- Verdict of the remote token check used by the spec-modelled validate
call. -/
inductive ValidateOutcome where
  | accepted : ValidateOutcome
  | rejected : String → ValidateOutcome

/-- Modelled from the spec: `blender_id_server_validate` of the
`communication` module is called by `BlenderIdValidate.execute`, but that
module is not present in the source tree (the repository ships `api.py`,
which has no validate function). Per the specification,
`validate(token) -> error_message | null` checks whether a token is still
accepted by the service, returning null on success or a human-readable
reason otherwise, and does not mutate the local store. The verdict of the
service is the `ValidateOutcome` parameter. -/
def blender_id_server_validate (tok : String) (o : ValidateOutcome) : Option String :=
  match o with
  | .accepted => none
  | .rejected reason => some reason

/-- `BlenderIdValidate.execute`: reset messages, validate the handle token,
and set the ok message or the error message accordingly. -/
def BlenderIdValidate.execute (o : ValidateOutcome) (s0 : UiState) : UiState × Option PyError :=
  let s := { s0 with prefs := reset_messages s0.prefs }
  match blender_id_server_validate s.handle.token o with
  | none =>
    ({ s with prefs := { s.prefs with ok_message := "Authentication token is valid." } }, none)
  | some r =>
    ({ s with prefs := { s.prefs with error_message :=
        r ++ "; you probably want to log out and log in again." } }, none)

/-! ### The claims -/

/-- C1: claimed behaviour of `get_profiles_data` over the store states it
enumerates, evaluated. The first three conjuncts confirm the documented
branches: an absent file, an unparseable file and a JSON object missing
the expected keys are all repaired — the default document is written and
returned. The last conjunct exhibits the divergence of the code from the
claim: a file holding valid JSON that is not an object (here the empty
list, which certainly lacks the `"active_profile"` key) makes the load
raise an uncaught `TypeError` instead of repairing the file, because the
`except` clause catches only `ValueError` and `KeyError`. -/
theorem claim_C1_load_repair :
    profiles.get_profiles_data .absent =
      .ok ⟨profiles.profiles_default_data, .json profiles.profiles_default_data,
           [profiles.profiles_default_data]⟩ ∧
    profiles.get_profiles_data .invalid =
      .ok ⟨profiles.profiles_default_data, .json profiles.profiles_default_data,
           [profiles.profiles_default_data]⟩ ∧
    profiles.get_profiles_data (.json (.obj [])) =
      .ok ⟨profiles.profiles_default_data, .json profiles.profiles_default_data,
           [profiles.profiles_default_data]⟩ ∧
    profiles.get_profiles_data (.json (.arr [])) = .error .typeError :=
  ⟨rfl, rfl, rfl, rfl⟩

/-- C2 counterexample: the round-trip claim fails as stated, at the empty
user id. After `save_as_active_profile("", "tok", "alice")` the store
holds the profile under the key `""` and the active pointer is `""`, yet
`get_profile("")` returns `None` (the `not user_id` truthiness test short
circuits on the empty string), not the saved `{username, token}` dict. -/
theorem claim_C2_counterexample :
    ¬ (∀ (u t n : String) (fs : FileState) (res : FileState × List Json),
        profiles.save_as_active_profile fs u t n = .ok res →
        ∃ rest, profiles.get_profile res.1 u =
          .ok (some (.obj [("username", .str n), ("token", .str t)]), rest)) := by
  intro h
  obtain ⟨rest, hr⟩ :=
    h "" "tok" "alice" (.json (encodeDoc ⟨none, []⟩))
      (.json (encodeDoc ⟨some "", [("", ⟨"alice", "tok"⟩)]⟩),
       [encodeDoc ⟨some "", [("", ⟨"alice", "tok"⟩)]⟩])
      (save_encode ⟨none, []⟩ "" "tok" "alice")
  rw [show profiles.get_profile
        (.json (encodeDoc ⟨some "", [("", ⟨"alice", "tok"⟩)]⟩)) "" =
        .ok (none, .json (encodeDoc ⟨some "", [("", ⟨"alice", "tok"⟩)]⟩)) from rfl] at hr
  simp at hr

/-- C2 amended: for every well-typed store document and every non-empty
user id `u`, running `save_as_active_profile(u, t, n)` and then
`get_profile(u)` on the resulting store returns `{username: n, token: t}`,
and `get_active_user_id()` on the resulting store returns `u`. -/
theorem claim_C2_roundtrip (d : Document) (u t n : String) (h : u ≠ "") :
    profiles.save_as_active_profile (.json (encodeDoc d)) u t n =
      .ok (.json (encodeDoc (saveT d u t n)), [encodeDoc (saveT d u t n)]) ∧
    profiles.get_profile (.json (encodeDoc (saveT d u t n))) u =
      .ok (some (.obj [("username", .str n), ("token", .str t)]),
           .json (encodeDoc (saveT d u t n))) ∧
    profiles.get_active_user_id (.json (encodeDoc (saveT d u t n))) =
      .ok (.str u, .json (encodeDoc (saveT d u t n))) := by
  refine ⟨save_encode d u t n, ?_, ?_⟩
  · rw [get_profile_encode (saveT d u t n) u h]
    simp [saveT, alookup_setKv_self]
  · rw [get_active_user_id_encode (saveT d u t n)]
    simp [saveT, encodeActive]

/-- C2 witness: the amended round trip at the concrete non-empty id
`"42"`. -/
theorem claim_C2_roundtrip_witness :
    profiles.get_profile (.json (encodeDoc (saveT ⟨none, []⟩ "42" "abc" "alice"))) "42" =
      .ok (some (.obj [("username", .str "alice"), ("token", .str "abc")]),
           .json (encodeDoc (saveT ⟨none, []⟩ "42" "abc" "alice"))) :=
  (claim_C2_roundtrip ⟨none, []⟩ "42" "abc" "alice" (by decide)).2.1

/-- C3: evaluation of `blender_id_server_authenticate` on 200 responses
with application status `fail`. When the response data flags the username
field, or the password field, the two specific messages are produced; but
in every other case (here: `data` flags neither field) the function
returns `error_message = None` — the claimed generic non-null fallback
message does not exist in the code, although the docstring of the
function promises an error message whenever the status is `fail`, and the
caller assigns the result to a string property. -/
theorem claim_C3_fail_messages :
    blender_id_server_authenticate "u" "p"
        (.resp 200 (some (.obj [("status", .str "fail"),
                                ("data", .obj [("username", .str "x")])]))) =
      .ok ⟨.str "fail", none, none, some "Username does not exist"⟩ ∧
    blender_id_server_authenticate "u" "p"
        (.resp 200 (some (.obj [("status", .str "fail"),
                                ("data", .obj [("password", .str "x")])]))) =
      .ok ⟨.str "fail", none, none, some "Password does not match!"⟩ ∧
    blender_id_server_authenticate "u" "p"
        (.resp 200 (some (.obj [("status", .str "fail"), ("data", .obj [])]))) =
      .ok ⟨.str "fail", none, none, none⟩ :=
  ⟨rfl, rfl, rfl⟩

/-- C4: a revoke outcome on which the logout operator never reaches the
local cleanup, contradicting the claim that the cleanup happens for every
outcome of the remote call. A 200 response whose body is not valid JSON
makes `blender_id_server_logout` raise `ValueError` from `r.json()`;
`BlenderIdLogout.execute` does not catch it, so `profiles.logout` never
runs, the store file keeps its profile and active pointer, and the
session handle keeps its id and token (only the transient messages, reset
on entry, change) — the session does not reach the logged-out state. -/
theorem claim_C4_revoke_error_blocks_cleanup :
    BlenderIdLogout.execute (.resp 200 none)
        ⟨⟨"previous error", "previous ok", "alice", ""⟩, ⟨"42", "abc"⟩,
         .json (encodeDoc ⟨some "42", [("42", ⟨"alice", "abc"⟩)]⟩)⟩ =
      (⟨⟨"", "", "alice", ""⟩, ⟨"42", "abc"⟩,
        .json (encodeDoc ⟨some "42", [("42", ⟨"alice", "abc"⟩)]⟩)⟩,
       some .valueError) :=
  rfl

/-- C5: for every well-typed store document and user id, `profiles.logout`
clears the active pointer to the empty string exactly when it equals the
id (leaving it unchanged otherwise), removes the profile entry of the id
while leaving every other entry unchanged, and performs exactly one full
write of the document even when nothing changed; on an absent or
unparseable store file the repaired default document is processed and
written back the same way. -/
theorem claim_C5_logout (d : Document) (u : String) :
    profiles.logout (.json (encodeDoc d)) u =
      .ok (.json (encodeDoc (logoutT d u)), [encodeDoc (logoutT d u)]) ∧
    (logoutT d u).active_profile =
      (if d.active_profile = some u then some "" else d.active_profile) ∧
    alookup (logoutT d u).profiles u = none ∧
    (∀ k, k ≠ u → alookup (logoutT d u).profiles k = alookup d.profiles k) ∧
    profiles.logout .absent u =
      .ok (.json profiles.profiles_default_data,
           [profiles.profiles_default_data, profiles.profiles_default_data]) ∧
    profiles.logout .invalid u =
      .ok (.json profiles.profiles_default_data,
           [profiles.profiles_default_data, profiles.profiles_default_data]) := by
  refine ⟨logout_encode d u, rfl, ?_, ?_, rfl, rfl⟩
  · simp [logoutT, alookup_eraseKv_self]
  · intro k hk
    simp [logoutT, alookup_eraseKv_ne d.profiles u k hk]

/-- C5 witness: with active `"A"` and stored profiles for `"A"` and `"B"`,
`logout("B")` keeps the active pointer and the entry of `"A"` while
removing `"B"`, and writes the document once. -/
theorem claim_C5_logout_witness :
    profiles.logout
        (.json (encodeDoc ⟨some "A", [("A", ⟨"alice", "t1"⟩), ("B", ⟨"bob", "t2"⟩)]⟩)) "B" =
      .ok (.json (encodeDoc (logoutT ⟨some "A", [("A", ⟨"alice", "t1"⟩), ("B", ⟨"bob", "t2"⟩)]⟩ "B")),
           [encodeDoc (logoutT ⟨some "A", [("A", ⟨"alice", "t1"⟩), ("B", ⟨"bob", "t2"⟩)]⟩ "B")]) ∧
    alookup (logoutT ⟨some "A", [("A", ⟨"alice", "t1"⟩), ("B", ⟨"bob", "t2"⟩)]⟩ "B").profiles "A" =
      some ⟨"alice", "t1"⟩ := by
  have h := claim_C5_logout ⟨some "A", [("A", ⟨"alice", "t1"⟩), ("B", ⟨"bob", "t2"⟩)]⟩ "B"
  refine ⟨h.1, ?_⟩
  rw [h.2.2.2.1 "A" (by decide)]
  rfl

/-- C6: for every well-typed store document, `get_active_profile` returns
`None` without raising whenever the active pointer is null, empty, or not
a key of the profiles map; and when it is a non-empty key it returns the
stored profile augmented with its user id. -/
theorem claim_C6_active_profile (d : Document) :
    (d.active_profile = none ∨ d.active_profile = some "" ∨
       (∀ s, d.active_profile = some s → alookup d.profiles s = none) →
     profiles.get_active_profile (.json (encodeDoc d)) = .ok (none, .json (encodeDoc d))) ∧
    (∀ s p, d.active_profile = some s → s ≠ "" → alookup d.profiles s = some p →
     profiles.get_active_profile (.json (encodeDoc d)) =
       .ok (some (.obj [("username", .str p.username), ("token", .str p.token),
                        ("user_id", .str s)]),
            .json (encodeDoc d))) := by
  constructor
  · intro h
    rw [get_active_profile_encode d]
    rcases ha : d.active_profile with _ | s
    · rfl
    · rcases h with h | h | h
      · rw [ha] at h
        simp at h
      · rw [ha] at h
        simp only [Option.some.injEq] at h
        subst h
        rfl
      · have hl := h s ha
        simp [hl]
  · intro s p hs hne hp
    rw [get_active_profile_encode d, hs]
    simp [hne, hp]

/-- C6 witness: a document whose active pointer is a stored key yields the
augmented profile, through the theorem. -/
theorem claim_C6_active_profile_witness :
    profiles.get_active_profile (.json (encodeDoc ⟨some "A", [("A", ⟨"alice", "tok"⟩)]⟩)) =
      .ok (some (.obj [("username", .str "alice"), ("token", .str "tok"), ("user_id", .str "A")]),
           .json (encodeDoc ⟨some "A", [("A", ⟨"alice", "tok"⟩)]⟩)) :=
  (claim_C6_active_profile ⟨some "A", [("A", ⟨"alice", "tok"⟩)]⟩).2 "A" ⟨"alice", "tok"⟩ rfl
    (by decide) rfl

/-- C7: whenever the authenticate call returns a result whose status is
`"fail"`, the login operator leaves the store file untouched (so no
profile entry and no active pointer can change) and leaves the session
handle untouched; it only surfaces the error message: when the result
carries one, it is assigned to the error message property. This holds
whether or not the operator completes — the only failure mode of the fail
branch (a `None` message, see the C3 record) raises on the message
assignment itself, after which nothing has been written either. -/
theorem claim_C7_login_fail_frame (o : HttpOutcome) (rc : Nat → Char) (s : UiState)
    (r : AuthResult)
    (h1 : blender_id_server_authenticate s.prefs.blender_id_username
            s.prefs.blender_id_password o = .ok r)
    (h2 : r.status = .str "fail") :
    (BlenderIdLogin.execute o rc s).st.store = s.store ∧
    (BlenderIdLogin.execute o rc s).st.handle = s.handle ∧
    (∀ m, r.error_message = some m →
       (BlenderIdLogin.execute o rc s).st.prefs.error_message = m) := by
  have hs : r.status.pyEqStr "success" = false := by
    rw [h2]
    rfl
  refine ⟨?_, ?_, ?_⟩
  · simp only [BlenderIdLogin.execute, reset_messages]
    rw [h1]
    simp only [hs, Bool.false_eq_true, if_false]
    rcases r.error_message with _ | m <;> rfl
  · simp only [BlenderIdLogin.execute, reset_messages]
    rw [h1]
    simp only [hs, Bool.false_eq_true, if_false]
    rcases r.error_message with _ | m <;> rfl
  · intro m hm
    simp only [BlenderIdLogin.execute, reset_messages]
    rw [h1]
    simp only [hs, Bool.false_eq_true, if_false, hm]

/-- C7 witness: a concrete failing authentication (wrong password) leaves a
concrete store file unchanged and surfaces the message. -/
theorem claim_C7_login_fail_frame_witness :
    (BlenderIdLogin.execute
        (.resp 200 (some (.obj [("status", .str "fail"),
                                ("data", .obj [("password", .str "x")])])))
        (fun _ => 'A')
        ⟨⟨"", "", "alice", "pw"⟩, ⟨"", ""⟩,
         .json (encodeDoc ⟨some "B", [("B", ⟨"bob", "t"⟩)]⟩)⟩).st.store =
      FileState.json (encodeDoc ⟨some "B", [("B", ⟨"bob", "t"⟩)]⟩) ∧
    (BlenderIdLogin.execute
        (.resp 200 (some (.obj [("status", .str "fail"),
                                ("data", .obj [("password", .str "x")])])))
        (fun _ => 'A')
        ⟨⟨"", "", "alice", "pw"⟩, ⟨"", ""⟩,
         .json (encodeDoc ⟨some "B", [("B", ⟨"bob", "t"⟩)]⟩)⟩).st.prefs.error_message =
      "Password does not match!" := by
  have h := claim_C7_login_fail_frame
    (.resp 200 (some (.obj [("status", .str "fail"),
                            ("data", .obj [("password", .str "x")])])))
    (fun _ => 'A')
    ⟨⟨"", "", "alice", "pw"⟩, ⟨"", ""⟩,
     .json (encodeDoc ⟨some "B", [("B", ⟨"bob", "t"⟩)]⟩)⟩
    ⟨.str "fail", none, none, some "Password does not match!"⟩ rfl rfl
  exact ⟨h.1, h.2.2 "Password does not match!" rfl⟩

/-- C8: the validate helper (modelled from the spec, its module being
absent from the source tree) returns null exactly when the service still
accepts the token, and the reason string otherwise; and the validate
operator never changes the profile store or the session handle and never
raises — it only sets the ok or the error message. -/
theorem claim_C8_validate (o : ValidateOutcome) (s : UiState) :
    (blender_id_server_validate s.handle.token o = none ↔ o = .accepted) ∧
    (∀ reason, o = .rejected reason →
       blender_id_server_validate s.handle.token o = some reason) ∧
    (BlenderIdValidate.execute o s).1.store = s.store ∧
    (BlenderIdValidate.execute o s).1.handle = s.handle ∧
    (BlenderIdValidate.execute o s).2 = none := by
  rcases o with _ | reason <;>
    simp [blender_id_server_validate, BlenderIdValidate.execute, reset_messages]

/-- C8 witness: a rejected token yields its reason and leaves a concrete
state's store untouched. -/
theorem claim_C8_validate_witness :
    blender_id_server_validate "abc" (.rejected "Token expired") = some "Token expired" ∧
    (BlenderIdValidate.execute (.rejected "Token expired")
        ⟨⟨"", "", "alice", ""⟩, ⟨"42", "abc"⟩,
         .json (encodeDoc ⟨some "42", [("42", ⟨"alice", "abc"⟩)]⟩)⟩).1.store =
      FileState.json (encodeDoc ⟨some "42", [("42", ⟨"alice", "abc"⟩)]⟩) := by
  have h := claim_C8_validate (.rejected "Token expired")
    ⟨⟨"", "", "alice", ""⟩, ⟨"42", "abc"⟩,
     .json (encodeDoc ⟨some "42", [("42", ⟨"alice", "abc"⟩)]⟩)⟩
  exact ⟨h.2.1 "Token expired" rfl, h.2.2.1⟩

/-- C9: on every successful login — authenticate returned status
`"success"` and the operator completed without raising — the password
property is written exactly twice: first a random string of length
`len(original password) + 16`, in particular non-empty and at least as
long as the original password, and only afterwards the empty string,
which is the final value of the property. It is never merely reset to
empty. -/
theorem claim_C9_password_overwrite (o : HttpOutcome) (rc : Nat → Char) (s : UiState)
    (r : AuthResult)
    (h1 : blender_id_server_authenticate s.prefs.blender_id_username
            s.prefs.blender_id_password o = .ok r)
    (h2 : r.status = .str "success")
    (h3 : (BlenderIdLogin.execute o rc s).err = none) :
    ∃ rnd : String,
      (BlenderIdLogin.execute o rc s).pwWrites = [rnd, ""] ∧
      rnd.length = s.prefs.blender_id_password.length + 16 ∧
      rnd ≠ "" ∧
      (BlenderIdLogin.execute o rc s).st.prefs.blender_id_password = "" := by
  have hs : r.status.pyEqStr "success" = true := by
    rw [h2]
    rfl
  simp only [BlenderIdLogin.execute, reset_messages] at h3 ⊢
  rw [h1] at h3 ⊢
  simp only [hs, if_true] at h3 ⊢
  rcases hu : r.user_id with _ | uid
  · rw [hu] at h3
    simp at h3
  · rw [hu] at h3
    rcases ht : r.token with _ | tk
    · rw [ht] at h3
      simp at h3
    · rcases tk with _ | b | nm | tok | xs | kvs
      · rw [ht] at h3
        simp at h3
      · rw [ht] at h3
        simp at h3
      · rw [ht] at h3
        simp at h3
      · rw [ht] at h3
        simp only [] at h3
        rcases hsv : profiles.save_as_active_profile s.store uid tok
            s.prefs.blender_id_username with e | pr
        · rw [hsv] at h3
          simp at h3
        · obtain ⟨fs, w⟩ := pr
          simp only []
          refine ⟨⟨(List.range (s.prefs.blender_id_password.length + 16)).map rc⟩,
                  ?_, ?_, ?_, ?_⟩
          · rw [hsv]
          · show (List.map rc (List.range (s.prefs.blender_id_password.length + 16))).length =
              s.prefs.blender_id_password.length + 16
            simp
          · intro hh
            have hlen : (List.map rc
                (List.range (s.prefs.blender_id_password.length + 16))).length =
                ("" : String).length := congrArg String.length hh
            simp at hlen
          · rw [hsv]
      · rw [ht] at h3
        simp at h3
      · rw [ht] at h3
        simp at h3

/-- C9 witness: a concrete successful login with original password `"pw"`
writes an 18-character random string and then the empty string. -/
theorem claim_C9_password_overwrite_witness :
    ∃ rnd : String,
      (BlenderIdLogin.execute
          (.resp 200 (some (.obj [("status", .str "success"),
              ("data", .obj [("user_id", .num 42),
                             ("oauth_token", .obj [("access_token", .str "abc")])])])))
          (fun _ => 'A')
          ⟨⟨"", "", "alice", "pw"⟩, ⟨"", ""⟩, .json (encodeDoc ⟨none, []⟩)⟩).pwWrites =
        [rnd, ""] ∧
      rnd.length = ("pw" : String).length + 16 ∧
      rnd ≠ "" ∧
      (BlenderIdLogin.execute
          (.resp 200 (some (.obj [("status", .str "success"),
              ("data", .obj [("user_id", .num 42),
                             ("oauth_token", .obj [("access_token", .str "abc")])])])))
          (fun _ => 'A')
          ⟨⟨"", "", "alice", "pw"⟩, ⟨"", ""⟩,
           .json (encodeDoc ⟨none, []⟩)⟩).st.prefs.blender_id_password = "" :=
  claim_C9_password_overwrite
    (.resp 200 (some (.obj [("status", .str "success"),
        ("data", .obj [("user_id", .num 42),
                       ("oauth_token", .obj [("access_token", .str "abc")])])])))
    (fun _ => 'A')
    ⟨⟨"", "", "alice", "pw"⟩, ⟨"", ""⟩, .json (encodeDoc ⟨none, []⟩)⟩
    ⟨.str "success", some "42", some (.str "abc"), none⟩ rfl rfl rfl

/-- C10: the store invariant — a non-empty active pointer is a key of the
profiles map — holds of the default document and is preserved by every
store operation on well-typed documents: the load is the identity on
them, `save_as_active_profile` establishes the invariant outright because
it always inserts the entry it activates, and `logout` preserves it
because it clears the pointer exactly when it removes the matching
entry. -/
theorem claim_C10_invariant :
    encodeDoc ⟨none, []⟩ = profiles.profiles_default_data ∧
    storeInvB ⟨none, []⟩ = true ∧
    (∀ d : Document, profiles.get_profiles_data (.json (encodeDoc d)) =
       .ok ⟨encodeDoc d, .json (encodeDoc d), []⟩) ∧
    (∀ (d : Document) (u t n : String), storeInvB (saveT d u t n) = true) ∧
    (∀ (d : Document) (u : String), storeInvB d = true → storeInvB (logoutT d u) = true) := by
  refine ⟨rfl, rfl, get_profiles_data_encode, ?_, ?_⟩
  · intro d u t n
    simp [storeInvB, saveT, alookup_setKv_self]
  · intro d u hinv
    rcases ha : d.active_profile with _ | a
    · simp [storeInvB, logoutT, ha]
    · by_cases hau : a = u
      · subst hau
        simp [storeInvB, logoutT, ha]
      · have h1 : (if (some a : Option String) = some u then some "" else some a) = some a :=
          if_neg (by simp [hau])
        simp only [storeInvB, logoutT, ha, h1] at hinv ⊢
        rw [alookup_eraseKv_ne d.profiles u a hau]
        exact hinv

/-- C10 witness: the logout preservation applied at a concrete invariant
document, discharging the invariant hypothesis. -/
theorem claim_C10_invariant_witness :
    storeInvB (logoutT ⟨some "A", [("A", ⟨"alice", "t"⟩)]⟩ "B") = true :=
  claim_C10_invariant.2.2.2.2 ⟨some "A", [("A", ⟨"alice", "t"⟩)]⟩ "B" (by decide)
